import Mathlib

/-
  Verification of the homelab container reconciliation engine.

  Shallow embedding of the lifecycle engine sources (container.go,
  docker_client.go).  External runtime behaviour (the docker API client) is
  modelled as oracles: functions from call indices to results.  Machine
  integers that never overflow in the modelled paths (order fields, timeouts)
  are modelled as Int; Go strings are modelled as Lean String with an explicit
  byte-wise lexicographic comparison mirroring Go's string `<`.
-/

namespace Homelab

/-! ## Container runtime states (docker_client.go) -/

/-- The container states modelled by the engine (docker_client.go, the
`containerState` enum). -/
inductive ContainerState where
  | unknown
  | notFound
  | created
  | running
  | paused
  | restarting
  | removing
  | exited
  | dead
deriving DecidableEq

/-- Embeds `containerStateFromString` (docker_client.go): any status string
outside the seven recognized ones maps to `unknown`. -/
def containerStateFromString (state : String) : ContainerState :=
  if state = "created" then .created
  else if state = "running" then .running
  else if state = "paused" then .paused
  else if state = "restarting" then .restarting
  else if state = "removing" then .removing
  else if state = "exited" then .exited
  else if state = "dead" then .dead
  else .unknown

/-! ## Byte-wise string comparison (Go's `<` on strings) -/

/-- Lexicographic strict comparison of char lists, mirroring Go's byte-wise
string comparison (well-defined codepoint-wise on the chars). -/
def lexLt : List Char → List Char → Bool
  | [], [] => false
  | [], _ :: _ => true
  | _ :: _, [] => false
  | a :: as, b :: bs => if a < b then true else if b < a then false else lexLt as bs

/-- Go's `s1 < s2` on strings. -/
def strLt (a b : String) : Bool := lexLt a.data b.data

/-! ## Configuration data model

Field sets are restricted to the fields the embedded functions read; the
remaining pass-through fields of `ContainerConfig`/`GlobalConfig` are not
referenced by any modelled code path. -/

/-- One environment variable entry (config `Env` lists). -/
structure EnvConfig where
  Var : String
  Value : String
deriving DecidableEq

/-- The per-container configuration fields read by the embedded methods of
`container` (container.go). -/
structure ContainerConfig where
  Name : String
  Order : Int
  Image : String
  HostName : String
  DomainName : String
  StopSignal : String
  StopTimeout : Int
  RestartPolicy : String
  Env : List EnvConfig

/-- The global default container configuration (`GlobalConfig.Container`). -/
structure GlobalContainerConfig where
  DomainName : String
  StopSignal : String
  StopTimeout : Int
  RestartPolicy : String
  Env : List EnvConfig

/-- Group configuration: name and order. -/
structure GroupConfig where
  Name : String
  Order : Int

/-- The current host as seen through `c.group.deployment.host`:
`allowedContainers` is a map keyed by composite container name with Go's
absent-key-means-false semantics, modelled as a Boolean function. -/
structure HostInfo where
  humanFriendlyHostName : String
  allowedContainers : String → Bool

/-- A container, with the pointer chain `c.group.config`,
`c.globalConfig.Container` and `c.group.deployment.host` flattened into
fields.  `ips` models the container's network endpoints
(`networkContainerIPMap`) as a list of (network name, ip) pairs. -/
structure container where
  config : ContainerConfig
  groupConfig : GroupConfig
  globalConfig : GlobalContainerConfig
  host : HostInfo
  ips : List (String × String)

/-- `containerName` (container.go): composite "group-container" name. -/
def containerName (group ctr : String) : String := group ++ "-" ++ ctr

/-- `container.name()`. -/
def name (c : container) : String := containerName c.groupConfig.Name c.config.Name

/-- `container.isAllowedOnCurrentHost()`. -/
def isAllowedOnCurrentHost (c : container) : Bool :=
  c.host.allowedContainers (name c)

/-- `container.imageReference()`. -/
def imageReference (c : container) : String := c.config.Image

/-- `container.domainName()`: falls back to the global default when the
per-container value is empty. -/
def domainName (c : container) : String :=
  if c.config.DomainName.length = 0 then c.globalConfig.DomainName
  else c.config.DomainName

/-- `container.stopSignal()`: returns the per-container value unconditionally
(no fallback in the source). -/
def stopSignal (c : container) : String := c.config.StopSignal

/-- `container.stopTimeout()`: falls back to the global default when the
per-container value is 0. -/
def stopTimeout (c : container) : Int :=
  if c.config.StopTimeout = 0 then c.globalConfig.StopTimeout
  else c.config.StopTimeout

/-- `container.restartPolicy()`: falls back to the global default when the
per-container value is empty (the resolved policy mode string). -/
def restartPolicy (c : container) : String :=
  if c.config.RestartPolicy.length = 0 then c.globalConfig.RestartPolicy
  else c.config.RestartPolicy

/-! ## Environment variable merge (container.go, `container.envVars`)

Go builds a `map[string]string`, inserting the global entries first and the
per-container entries second.  The map is modelled as an association list
with keyed insert-or-replace (`upsert`); Go's random map iteration order is
fixed here to first-insertion order, which is irrelevant to the keyed
semantics the claims are about. -/

/-- Keyed insert-or-replace into an association list (one Go map store). -/
def upsert : List (String × String) → String → String → List (String × String)
  | [], k, v => [(k, v)]
  | p :: rest, k, v => if p.1 = k then (k, v) :: rest else p :: upsert rest k v

/-- The merged environment map of `container.envVars`: global entries are
inserted first, per-container entries second. -/
def envMap (c : container) : List (String × String) :=
  (c.globalConfig.Env ++ c.config.Env).foldl (fun m e => upsert m e.Var e.Value) []

/-- `container.envVars()`: the merged map rendered as "k=v" strings. -/
def envVars (c : container) : List String :=
  (envMap c).map (fun p => p.1 ++ "=" ++ p.2)

/-- Key lookup in the merged environment map. -/
def lookupKey (m : List (String × String)) (k : String) : Option String :=
  (m.find? (fun p => p.1 = k)).map (fun p => p.2)

/-! ## Spec-side definitions (for refinement comparisons)

These follow the spec's words, to be compared against the source-derived
definitions above. -/

/-- The spec's fallback rule for string-valued defaults: use the global
default whenever the per-container value is unset (empty). -/
def specResolveString (own fallback : String) : String :=
  if own.length = 0 then fallback else own

/-- The spec's fallback rule for the integer stop timeout: use the global
default whenever the per-container value is unset (0). -/
def specResolveInt (own fallback : Int) : Int :=
  if own = 0 then fallback else own

/-- The spec's overlay semantics for a list of environment entries: the last
entry for a key wins. -/
def specLastValue (k : String) : List EnvConfig → Option String
  | [] => none
  | e :: rest =>
    match specLastValue k rest with
    | some v => some v
    | none => if e.Var = k then some e.Value else none

/-- The resolved runtime creation parameters of `generateDockerConfigs`
(container.go) that carry resolution logic; pass-through fields that copy a
config value verbatim and are unreferenced by the claims are omitted. -/
structure DockerConfigs where
  Hostname : String
  Domainname : String
  Env : List String
  StopSignal : String
  StopTimeout : Int
  RestartPolicy : String
  Image : String
deriving DecidableEq

/-- `container.generateDockerConfigs()` (the resolved fields; never fails in
the source). -/
def generateDockerConfigs (c : container) : DockerConfigs :=
  { Hostname := c.config.HostName
    Domainname := domainName c
    Env := envVars c
    StopSignal := stopSignal c
    StopTimeout := stopTimeout c
    RestartPolicy := restartPolicy c
    Image := imageReference c }

/-! ## Purge state machine (container.go, `container.purge`)

The docker API client is modelled as an oracle `DockerSim`: `inspect` gives
the result of the n-th `ContainerInspect` call (0-based), `stop` the result
of the single possible `ContainerStop` call, `remove` the result of the
`ContainerRemove` call issued right after the n-th state query.  Kill results
are not modelled because the source discards them. -/

/-- Result of one `ContainerInspect` call as classified by
`getContainerState` (docker_client.go): a not-found error, another API
error, or a status string. -/
inductive InspectResult where
  | notFoundErr
  | apiErr (reason : String)
  | status (s : String)
deriving DecidableEq

/-- Oracle for the docker API calls issued during a purge. -/
structure DockerSim where
  inspect : Nat → InspectResult
  stop : Except String Unit
  remove : Nat → Except String Unit

/-- `dockerClient.getContainerState` (docker_client.go) on the q-th query. -/
def getContainerState (sim : DockerSim) (q : Nat) : Except String ContainerState :=
  match sim.inspect q with
  | .notFoundErr => .ok .notFound
  | .apiErr e => .error ("failed to retrieve the container state, reason: " ++ e)
  | .status s => .ok (containerStateFromString s)

/-- `dockerClient.stopContainer` (docker_client.go). -/
def stopContainer (sim : DockerSim) : Except String Unit :=
  match sim.stop with
  | .ok _ => .ok ()
  | .error e => .error ("failed to stop the container, reason: " ++ e)

/-- `dockerClient.removeContainer` (docker_client.go), for the remove call
issued after the q-th state query. -/
def removeContainer (sim : DockerSim) (q : Nat) : Except String Unit :=
  match sim.remove q with
  | .ok _ => .ok ()
  | .error e => .error ("failed to remove the container, reason: " ++ e)

/-- One docker call made by the purge loop. -/
inductive PurgeEvent where
  | inspectCall
  | stopCall
  | killCall
  | sleepCall
  | removeCall
deriving DecidableEq

/-- How the purge loop exited. -/
inductive LoopExit where
  | purged
  | exhausted (qNext : Nat)
  | fail (msg : String)
  | fatalExit
deriving DecidableEq

/-- `stopAndRemoveAttempts` (container.go). -/
def stopAndRemoveAttempts : Nat := 5

/-- The loop of `container.purge` (container.go): fuel is the remaining
attempt budget (`attemptsRemaining`), `q` the number of state queries issued
so far, `stopped` the `stoppedOnceAlready` flag.  Returns the docker calls
issued and the loop exit. -/
def purgeLoop (sim : DockerSim) : Nat → Nat → Bool → List PurgeEvent × LoopExit
  | 0, q, _ => ([], .exhausted q)
  | fuel + 1, q, stopped =>
    match getContainerState sim q with
    | .error e => ([.inspectCall], .fail e)
    | .ok st =>
      match st with
      | .notFound => ([.inspectCall], .purged)
      | .running | .paused | .restarting =>
        if stopped then
          let r := purgeLoop sim fuel (q + 1) stopped
          (.inspectCall :: .killCall :: .sleepCall :: r.1, r.2)
        else
          match stopContainer sim with
          | .error e => ([.inspectCall, .stopCall], .fail e)
          | .ok _ =>
            let r := purgeLoop sim fuel (q + 1) true
            (.inspectCall :: .stopCall :: r.1, r.2)
      | .created | .exited | .dead =>
        match removeContainer sim q with
        | .error e => ([.inspectCall, .removeCall], .fail e)
        | .ok _ =>
          let r := purgeLoop sim fuel (q + 1) stopped
          (.inspectCall :: .removeCall :: r.1, r.2)
      | .removing =>
        let r := purgeLoop sim fuel (q + 1) stopped
        (.inspectCall :: .sleepCall :: r.1, r.2)
      | .unknown => ([.inspectCall], .fatalExit)

/-- Outcome of one purge: success, a per-container error returned to the
caller, or a fatal abort (`log.Fatalf` in the source terminates the whole
process, not just this container's purge). -/
inductive PurgeOutcome where
  | ok
  | err (msg : String)
  | fatal
deriving DecidableEq

/-- The `PurgeExhaustedError` message of `container.purge`. -/
def purgeExhaustedMsg (ctr : String) : String :=
  "failed to stop and remove container " ++ ctr ++ " after " ++
    toString stopAndRemoveAttempts ++ " attempts"

/-- `container.purge` (container.go): the bounded loop followed, when the
budget is exhausted without purging, by one final state query. -/
def purge (ctr : String) (sim : DockerSim) : List PurgeEvent × PurgeOutcome :=
  let r := purgeLoop sim stopAndRemoveAttempts 0 false
  match r.2 with
  | .purged => (r.1, .ok)
  | .fail e => (r.1, .err e)
  | .fatalExit => (r.1, .fatal)
  | .exhausted q =>
    match getContainerState sim q with
    | .error e => (r.1 ++ [.inspectCall], .err e)
    | .ok st =>
      if st = .notFound then (r.1 ++ [.inspectCall], .ok)
      else (r.1 ++ [.inspectCall], .err (purgeExhaustedMsg ctr))

/-! ## Image pull (docker_client.go, `pullImage` / `queryLocalImage`) -/

/-- Oracle for the docker API calls issued while pulling an image:
`list` gives the IDs returned by the n-th `ImageList` call (or its error),
`pull` the `ImagePull` result, `readProgress` the result of consuming the
progress stream. -/
structure ImageSim where
  list : Nat → Except String (List String)
  pull : Except String Unit
  readProgress : Except String Unit
  debug : Bool

/-- `dockerClient.queryLocalImage` (docker_client.go) on the n-th listing:
errors and empty listings are both reported as not-available. -/
def queryLocalImage (sim : ImageSim) (n : Nat) : Bool × String :=
  match sim.list n with
  | .error _ => (false, "")
  | .ok [] => (false, "")
  | .ok (id :: _) => (true, id)

/-- `dockerClient.pullImage` (docker_client.go).  Returns the info/warn-level
notices emitted and the result.  Debug-level messages are not modelled. -/
def pullImage (imageName : String) (sim : ImageSim) : List String × Except String Unit :=
  let a0 := queryLocalImage sim 0
  let showProgress := sim.debug || !a0.1
  match sim.pull with
  | .error e =>
    ([], .error ("failed to pull the image " ++ imageName ++ ", reason: " ++ e))
  | .ok _ =>
    let ns := if showProgress && !a0.1 then ["Pulling image: " ++ imageName] else []
    match sim.readProgress with
    | .error e =>
      (ns, .error ("failed while pulling the image " ++ imageName ++ ", reason: " ++ e))
    | .ok _ =>
      let a1 := queryLocalImage sim 1
      if !a1.1 then
        (ns, .error ("image " ++ imageName ++
          " not available locally after a successful pull, possibly indicating a bug or a system failure!"))
      else if showProgress then (ns, .ok ())
      else if a1.2 ≠ a0.2 then
        (ns ++ ["Pulled newer version of image " ++ imageName ++ ": " ++ a1.2], .ok ())
      else (ns, .ok ())

/-! ## Start sequence (container.go, `container.startInternal` / `container.start`) -/

/-- Oracle for the calls a single container start makes beyond the image and
purge oracles: `create` is the `createContainer` result, `netCreate` and
`connect` the per-endpoint network ensure/connect results (indexed by
endpoint position), `startC` the `startContainer` result. -/
structure StartEnv where
  imageSim : ImageSim
  purgeSim : DockerSim
  create : Except String Unit
  netCreate : Nat → Except String Unit
  connect : Nat → Except String Unit
  startC : Except String Unit

/-- One runtime call made by the start sequence.  The create call carries
the translated creation parameters, witnessing that spec translation
happens before creation. -/
inductive StartEvent where
  | pullCall (image : String)
  | purgeCall (e : PurgeEvent)
  | createCall (ctr : String) (cfg : DockerConfigs)
  | netEnsureCall (net : String)
  | connectCall (net : String) (ip : String)
  | startCall (ctr : String)
deriving DecidableEq

/-- Result of starting one container. -/
inductive StartResult where
  | ok
  | err (msg : String)
  | fatal
deriving DecidableEq

/-- The per-endpoint loop of `startInternal` step 5: ensure the network
exists, then connect (endpoint `i` uses the i-th oracle entries). -/
def netLoop (env : StartEnv) : Nat → List (String × String) → List StartEvent × Except String Unit
  | _, [] => ([], .ok ())
  | i, (net, ip) :: rest =>
    match env.netCreate i with
    | .error e => ([.netEnsureCall net], .error e)
    | .ok _ =>
      match env.connect i with
      | .error e => ([.netEnsureCall net, .connectCall net ip], .error e)
      | .ok _ =>
        let r := netLoop env (i + 1) rest
        (.netEnsureCall net :: .connectCall net ip :: r.1, r.2)

/-- `container.startInternal` (container.go): pull, purge, translate, create,
per-endpoint network bootstrap, start.  Returns (runtime calls, notices,
result); the error wrapping of `createContainer`/`startContainer`
(docker_client.go) is applied here. -/
def startInternal (c : container) (env : StartEnv) : List StartEvent × List String × StartResult :=
  let pr := pullImage (imageReference c) env.imageSim
  match pr.2 with
  | .error e => ([.pullCall (imageReference c)], pr.1, .err e)
  | .ok _ =>
    let pg := purge (name c) env.purgeSim
    let evs0 : List StartEvent := .pullCall (imageReference c) :: pg.1.map .purgeCall
    match pg.2 with
    | .fatal => (evs0, pr.1, .fatal)
    | .err e => (evs0, pr.1, .err e)
    | .ok =>
      let cfg := generateDockerConfigs c
      match env.create with
      | .error e =>
        (evs0 ++ [.createCall (name c) cfg], pr.1,
          .err ("failed to create the container, reason: " ++ e))
      | .ok _ =>
        let nl := netLoop env 0 c.ips
        let evs1 := evs0 ++ .createCall (name c) cfg :: nl.1
        match nl.2 with
        | .error e => (evs1, pr.1, .err e)
        | .ok _ =>
          let ns := pr.1 ++
            (if c.ips.length = 0 then
              ["Container " ++ name c ++ " has no network endpoints configured, this is uncommon!"]
            else [])
          match env.startC with
          | .error e =>
            (evs1 ++ [.startCall (name c)], ns,
              .err ("failed to start the container, reason: " ++ e))
          | .ok _ => (evs1 ++ [.startCall (name c)], ns, .ok)

/-- `container.start` (container.go): host-admission check, then
`startInternal` with its error tagged with the container's identity; a
disallowed container is a skip with a single notice and no runtime call. -/
def start (c : container) (env : StartEnv) : List StartEvent × List String × StartResult :=
  if isAllowedOnCurrentHost c then
    match startInternal c env with
    | (evs, ns, .ok) => (evs, ns ++ ["Started container " ++ name c], .ok)
    | (evs, ns, .err e) =>
      (evs, ns, .err ("Failed to start container " ++ name c ++ ", reason:" ++ e))
    | (evs, ns, .fatal) => (evs, ns, .fatal)
  else
    ([], ["Container " ++ name c ++ " not allowed to run on host \x27" ++
      c.host.humanFriendlyHostName ++ "\x27"], .ok)

/-! ## Orchestrator batch loop -/

/-- Outcome of a batch of starts. -/
inductive BatchOutcome where
  | ok
  | err (msg : String)
  | fatalAbort
deriving DecidableEq

/-- Modelled from the spec: the orchestrator's rendering of the aggregate
error entries, "\n{i} - {msg}" with 1-indexed positions in original
processing order (the batch loop itself is not under src/; only its CLI
callers and tests are). -/
def renderFails : Nat → List String → String
  | _, [] => ""
  | i, m :: rest => "\n" ++ toString i ++ " - " ++ m ++ renderFails (i + 1) rest

/-- Modelled from the spec: the single aggregate error raised after the batch
when at least one per-container failure was recorded. -/
def aggregateMsg (op : String) (fails : List String) : String :=
  op ++ " failed for " ++ toString fails.length ++ " containers, reason(s):" ++
    renderFails 1 fails

/-- Modelled from the spec: the orchestrator loop over the ordered containers
(not under src/).  Each container is started in order; a per-container
failure is recorded and processing continues; a fatal invariant violation
aborts the batch immediately.  Returns (containers processed, notices,
recorded failure messages in order, fatal flag). -/
def batchLoop : List (container × StartEnv) → Nat × List String × List String × Bool
  | [] => (0, [], [], false)
  | (c, env) :: rest =>
    let r := start c env
    match r.2.2 with
    | .fatal => (1, r.2.1, [], true)
    | .ok =>
      let b := batchLoop rest
      (b.1 + 1, r.2.1 ++ b.2.1, b.2.2.1, b.2.2.2)
    | .err m =>
      let b := batchLoop rest
      (b.1 + 1, r.2.1 ++ b.2.1, m :: b.2.2.1, b.2.2.2)

/-- Modelled from the spec: the start batch — run the loop, then raise the
single aggregate error when failures were recorded, succeed otherwise. -/
def startBatch (items : List (container × StartEnv)) :
    Nat × List String × BatchOutcome :=
  let b := batchLoop items
  if b.2.2.2 then (b.1, b.2.1, .fatalAbort)
  else if b.2.2.1 = [] then (b.1, b.2.1, .ok)
  else (b.1, b.2.1, .err (aggregateMsg "start" b.2.2.1))

/-! ## Ordering resolver (container.go, `containerMapToList`) -/

/-- The comparator of `containerMapToList` (container.go): group order first,
then container order, then the composite container name. -/
def containerLess (c1 c2 : container) : Bool :=
  if c1.groupConfig.Order = c2.groupConfig.Order then
    if c1.config.Order = c2.config.Order then strLt (name c1) (name c2)
    else decide (c1.config.Order < c2.config.Order)
  else decide (c1.groupConfig.Order < c2.groupConfig.Order)

/-- The sort key (group.order, container.order, composite name). -/
def sortKey (c : container) : Int × Int × String :=
  (c.groupConfig.Order, c.config.Order, name c)

/-- The comparator expressed on sort keys. -/
def kLt (x y : Int × Int × String) : Bool :=
  if x.1 = y.1 then
    if x.2.1 = y.2.1 then strLt x.2.2 y.2.2
    else decide (x.2.1 < y.2.1)
  else decide (x.1 < y.1)

/-- `containerMapToList` (container.go): the map's values sorted with the
comparator.  Go's `sort.Slice` guarantees only a sorted permutation of the
input; the embedding realizes one with merge sort over the non-strict
comparator. -/
def containerMapToList (cm : List container) : List container :=
  cm.mergeSort (fun a b => !containerLess b a)

/-! ## Derived observations used by the theorems -/

/-- The state a query reports, when it reports one (none on an API error). -/
def stateReported (sim : DockerSim) (q : Nat) : Option ContainerState :=
  match getContainerState sim q with
  | .ok st => some st
  | .error _ => none

/-- The full per-endpoint network bootstrap trace for an endpoint list. -/
def netTrace : List (String × String) → List StartEvent
  | [] => []
  | (net, ip) :: rest => .netEnsureCall net :: .connectCall net ip :: netTrace rest

/-- The complete, in-order runtime call trace of a fully successful
`startInternal`: pull, the purge calls, create (with the translated
parameters), per-endpoint ensure + connect, start. -/
def canonicalStartTrace (c : container) (env : StartEnv) : List StartEvent :=
  .pullCall (imageReference c) :: (purge (name c) env.purgeSim).1.map .purgeCall ++
    .createCall (name c) (generateDockerConfigs c) :: netTrace c.ips ++
      [.startCall (name c)]

/-- The per-container failure messages of a batch, in processing order. -/
def batchFails (items : List (container × StartEnv)) : List String :=
  items.filterMap (fun p =>
    match (start p.1 p.2).2.2 with
    | .err m => some m
    | _ => none)

/-! ## Concrete fixtures -/

/-- A docker oracle whose container is stuck in `running` forever. -/
def runningSim : DockerSim :=
  { inspect := fun _ => .status "running", stop := .ok (), remove := fun _ => .ok () }

/-- A docker oracle that walks through every non-terminal branch (remove,
stop, removing-wait, kill, remove) and reports not-found on the final
query. -/
def variedSim : DockerSim :=
  { inspect := fun n =>
      match n with
      | 0 => .status "created"
      | 1 => .status "running"
      | 2 => .status "removing"
      | 3 => .status "paused"
      | 4 => .status "exited"
      | _ => .notFoundErr
    stop := .ok ()
    remove := fun _ => .ok () }

/-- A docker oracle reporting an unmodelled status string on every query. -/
def zombieSim : DockerSim :=
  { inspect := fun _ => .status "zombie", stop := .ok (), remove := fun _ => .ok () }

/-- A docker oracle whose container is already absent. -/
def absentSim : DockerSim :=
  { inspect := fun _ => .notFoundErr, stop := .ok (), remove := fun _ => .ok () }

/-- An image oracle where everything succeeds (locally available image). -/
def okImageSim : ImageSim :=
  { list := fun _ => .ok ["sha256:abc"], pull := .ok (), readProgress := .ok ()
    debug := false }

/-- An image oracle whose post-pull listing fails. -/
def relistFailImageSim : ImageSim :=
  { list := fun n => if n = 0 then .ok ["sha256:abc"] else .error "boom"
    pull := .ok (), readProgress := .ok (), debug := false }

/-- An image oracle for an image reference the registry rejects. -/
def pullFailImageSim (image : String) : ImageSim :=
  { list := fun _ => .ok []
    pull := .error ("image " ++ image ++
      " not found or invalid and cannot be pulled by the fake docker host")
    readProgress := .ok (), debug := false }

/-- Global defaults used by the fixtures. -/
def sampleGlobal : GlobalContainerConfig :=
  { DomainName := "example.tld", StopSignal := "SIGTERM", StopTimeout := 30
    RestartPolicy := "unless-stopped", Env := [⟨"FOO", "bar"⟩] }

/-- A host that admits every container. -/
def openHost : HostInfo :=
  { humanFriendlyHostName := "fakehost", allowedContainers := fun _ => true }

/-- A host that admits no container. -/
def closedHost : HostInfo :=
  { humanFriendlyHostName := "fakehost", allowedContainers := fun _ => false }

/-- A container fixture: group g1 (order 1), container c1 (order 1), image
abc/xyz, every per-container default unset. -/
def ctrC1 : container :=
  { config := { Name := "c1", Order := 1, Image := "abc/xyz", HostName := "h1"
                DomainName := "", StopSignal := "", StopTimeout := 0
                RestartPolicy := "", Env := [⟨"FOO", "baz"⟩] }
    groupConfig := { Name := "g1", Order := 1 }
    globalConfig := sampleGlobal
    host := openHost
    ips := [("net1", "172.18.100.11")] }

/-- Same container as `ctrC1` but on a host that does not admit it. -/
def ctrC1Denied : container :=
  { config := ctrC1.config, groupConfig := ctrC1.groupConfig
    globalConfig := sampleGlobal, host := closedHost, ips := ctrC1.ips }

/-- Group g1 container c2 (order 2), image abc/xyz2. -/
def ctrC2 : container :=
  { config := { Name := "c2", Order := 2, Image := "abc/xyz2", HostName := "h2"
                DomainName := "", StopSignal := "", StopTimeout := 0
                RestartPolicy := "", Env := [] }
    groupConfig := { Name := "g1", Order := 1 }
    globalConfig := sampleGlobal
    host := openHost
    ips := [("net1", "172.18.100.12")] }

/-- Group g2 (order 2) container c3 (order 1), image abc/xyz3. -/
def ctrC3 : container :=
  { config := { Name := "c3", Order := 1, Image := "abc/xyz3", HostName := "h3"
                DomainName := "", StopSignal := "", StopTimeout := 0
                RestartPolicy := "", Env := [] }
    groupConfig := { Name := "g2", Order := 2 }
    globalConfig := sampleGlobal
    host := openHost
    ips := [("net2", "172.18.101.21")] }

/-- A start oracle where every call succeeds. -/
def allOkEnv : StartEnv :=
  { imageSim := okImageSim, purgeSim := absentSim, create := .ok ()
    netCreate := fun _ => .ok (), connect := fun _ => .ok (), startC := .ok () }

/-- A start oracle whose image pull fails for the given image reference. -/
def pullFailEnv (image : String) : StartEnv :=
  { imageSim := pullFailImageSim image, purgeSim := absentSim, create := .ok ()
    netCreate := fun _ => .ok (), connect := fun _ => .ok (), startC := .ok () }

/-- The spec's aggregation scenario: containers 1 and 3 fail their image
pull, container 2 succeeds. -/
def batchItems : List (container × StartEnv) :=
  [(ctrC1, pullFailEnv "abc/xyz"), (ctrC2, allOkEnv), (ctrC3, pullFailEnv "abc/xyz3")]

/-- Group "a-b", container "c": its composite name collides with
`ctrTieY`'s. -/
def ctrTieX : container :=
  { config := { Name := "c", Order := 0, Image := "i", HostName := ""
                DomainName := "", StopSignal := "", StopTimeout := 0
                RestartPolicy := "", Env := [] }
    groupConfig := { Name := "a-b", Order := 0 }
    globalConfig := sampleGlobal
    host := openHost
    ips := [] }

/-- Group "a", container "b-c": a container distinct from `ctrTieX` (its
(group, container) identity pair differs) with the same composite name
"a-b-c" and the same orders. -/
def ctrTieY : container :=
  { config := { Name := "b-c", Order := 0, Image := "i", HostName := ""
                DomainName := "", StopSignal := "", StopTimeout := 0
                RestartPolicy := "", Env := [] }
    groupConfig := { Name := "a", Order := 0 }
    globalConfig := sampleGlobal
    host := openHost
    ips := [] }

/-! ## Helper lemmas -/

/-- A query whose result the engine does not model makes the purge loop stop
at once with the fatal exit. -/
theorem purgeLoop_unknown_step (sim : DockerSim) (fuel q : Nat) (stopped : Bool)
    (h : getContainerState sim q = .ok .unknown) :
    purgeLoop sim (fuel + 1) q stopped = ([.inspectCall], .fatalExit) := by
  simp [purgeLoop, h]

/-- When stop and remove succeed and every queried state is reported,
recognized, and neither `NotFound` nor `Unknown`, the purge loop runs its
whole budget: each iteration issues exactly one state query and consumes one
unit of fuel, whichever branch it takes. -/
theorem purgeLoop_exhausts_budget (sim : DockerSim)
    (hstop : sim.stop = .ok ()) (hrem : ∀ i, sim.remove i = .ok ()) :
    ∀ (fuel q : Nat) (stopped : Bool),
      (∀ i, i < fuel → stateReported sim (q + i) ≠ none ∧
        stateReported sim (q + i) ≠ some .notFound ∧
        stateReported sim (q + i) ≠ some .unknown) →
      (purgeLoop sim fuel q stopped).2 = .exhausted (q + fuel) ∧
      (purgeLoop sim fuel q stopped).1.count .inspectCall = fuel := by
  intro fuel
  induction fuel with
  | zero =>
    intro q stopped _
    simp [purgeLoop]
  | succ n ih =>
    intro q stopped h
    have hq0 := h 0 (by omega)
    rw [Nat.add_zero] at hq0
    obtain ⟨hne, hnf, hnu⟩ := hq0
    have harith : q + (n + 1) = q + 1 + n := by omega
    have hshift : ∀ stopped', (purgeLoop sim n (q + 1) stopped').2 = .exhausted (q + 1 + n) ∧
        (purgeLoop sim n (q + 1) stopped').1.count .inspectCall = n := by
      intro stopped'
      apply ih
      intro i hi
      have hh := h (i + 1) (by omega)
      rwa [show q + (i + 1) = q + 1 + i by omega] at hh
    cases hg : getContainerState sim q with
    | error e =>
      exact absurd (by simp [stateReported, hg]) hne
    | ok st =>
      have hsr : stateReported sim q = some st := by simp [stateReported, hg]
      have hsc : stopContainer sim = .ok () := by simp [stopContainer, hstop]
      have hrc : removeContainer sim q = .ok () := by simp [removeContainer, hrem q]
      cases st with
      | notFound => exact absurd hsr hnf
      | unknown => exact absurd hsr hnu
      | running =>
        cases stopped with
        | false =>
          obtain ⟨h2, hc⟩ := hshift true
          refine ⟨?_, ?_⟩
          · rw [harith]
            simpa [purgeLoop, hg, hsc] using h2
          · simp [purgeLoop, hg, hsc, List.count_cons, hc]
        | true =>
          obtain ⟨h2, hc⟩ := hshift true
          refine ⟨?_, ?_⟩
          · rw [harith]
            simpa [purgeLoop, hg] using h2
          · simp [purgeLoop, hg, List.count_cons, hc]
      | paused =>
        cases stopped with
        | false =>
          obtain ⟨h2, hc⟩ := hshift true
          refine ⟨?_, ?_⟩
          · rw [harith]
            simpa [purgeLoop, hg, hsc] using h2
          · simp [purgeLoop, hg, hsc, List.count_cons, hc]
        | true =>
          obtain ⟨h2, hc⟩ := hshift true
          refine ⟨?_, ?_⟩
          · rw [harith]
            simpa [purgeLoop, hg] using h2
          · simp [purgeLoop, hg, List.count_cons, hc]
      | restarting =>
        cases stopped with
        | false =>
          obtain ⟨h2, hc⟩ := hshift true
          refine ⟨?_, ?_⟩
          · rw [harith]
            simpa [purgeLoop, hg, hsc] using h2
          · simp [purgeLoop, hg, hsc, List.count_cons, hc]
        | true =>
          obtain ⟨h2, hc⟩ := hshift true
          refine ⟨?_, ?_⟩
          · rw [harith]
            simpa [purgeLoop, hg] using h2
          · simp [purgeLoop, hg, List.count_cons, hc]
      | created =>
        obtain ⟨h2, hc⟩ := hshift stopped
        refine ⟨?_, ?_⟩
        · rw [harith]
          simpa [purgeLoop, hg, hrc] using h2
        · simp [purgeLoop, hg, hrc, List.count_cons, hc]
      | exited =>
        obtain ⟨h2, hc⟩ := hshift stopped
        refine ⟨?_, ?_⟩
        · rw [harith]
          simpa [purgeLoop, hg, hrc] using h2
        · simp [purgeLoop, hg, hrc, List.count_cons, hc]
      | dead =>
        obtain ⟨h2, hc⟩ := hshift stopped
        refine ⟨?_, ?_⟩
        · rw [harith]
          simpa [purgeLoop, hg, hrc] using h2
        · simp [purgeLoop, hg, hrc, List.count_cons, hc]
      | removing =>
        obtain ⟨h2, hc⟩ := hshift stopped
        refine ⟨?_, ?_⟩
        · rw [harith]
          simpa [purgeLoop, hg] using h2
        · simp [purgeLoop, hg, List.count_cons, hc]

/-- Looking a key up after a keyed insert-or-replace: the inserted key maps
to the new value, every other key is unaffected. -/
theorem lookupKey_upsert (m : List (String × String)) (k v k' : String) :
    lookupKey (upsert m k v) k' = if k' = k then some v else lookupKey m k' := by
  induction m with
  | nil =>
    by_cases h : k' = k
    · simp [upsert, lookupKey, h]
    · simp [upsert, lookupKey, h, Ne.symm h]
  | cons p rest ih =>
    by_cases hp : p.1 = k
    · by_cases h : k' = k
      · simp [upsert, lookupKey, hp, h]
      · have hpk : ¬ p.1 = k' := by rw [hp]; exact Ne.symm h
        simp [upsert, lookupKey, hp, h, Ne.symm h, hpk]
    · by_cases hq : p.1 = k'
      · have hkk : ¬ k' = k := fun h => hp (hq.trans h)
        simp [upsert, lookupKey, hp, hq, hkk]
      · simp only [upsert, hp, if_neg hp, lookupKey, List.find?_cons, decide_eq_true_eq]
        simp [lookupKey] at ih
        simp [hq, ih]

/-- A key in the result of an insert-or-replace was in the map or is the
inserted key. -/
theorem upsert_keys_mem (m : List (String × String)) (k v x : String)
    (h : x ∈ (upsert m k v).map Prod.fst) : x ∈ m.map Prod.fst ∨ x = k := by
  induction m with
  | nil =>
    simp [upsert] at h
    simp [h]
  | cons p rest ih =>
    by_cases hp : p.1 = k
    · simp [upsert, hp] at h
      rcases h with h | h
      · right; exact h
      · left; simp [h]
    · simp [upsert, hp] at h
      rcases h with h | h
      · left; simp [h]
      · rcases ih (by simpa using h) with h' | h'
        · left
          simp only [List.map_cons, List.mem_cons]
          right
          exact h'
        · right; exact h'

/-- Insert-or-replace preserves key distinctness. -/
theorem upsert_keys_nodup (m : List (String × String)) (k v : String)
    (h : (m.map Prod.fst).Nodup) : ((upsert m k v).map Prod.fst).Nodup := by
  induction m with
  | nil => simp [upsert]
  | cons p rest ih =>
    simp only [List.map_cons, List.nodup_cons] at h
    by_cases hp : p.1 = k
    · simp only [upsert, if_pos hp, List.map_cons, List.nodup_cons]
      exact ⟨by rw [← hp]; exact h.1, h.2⟩
    · simp only [upsert, if_neg hp, List.map_cons, List.nodup_cons]
      refine ⟨?_, ih h.2⟩
      intro hmem
      rcases upsert_keys_mem rest k v p.1 hmem with h' | h'
      · exact h.1 h'
      · exact hp h'

/-- Folding environment entries into the map with keyed stores realizes
last-entry-wins overlay semantics. -/
theorem lookupKey_envFold (l : List EnvConfig) :
    ∀ (m : List (String × String)) (k : String),
      lookupKey (l.foldl (fun m e => upsert m e.Var e.Value) m) k =
        match specLastValue k l with
        | some v => some v
        | none => lookupKey m k := by
  induction l with
  | nil =>
    intro m k
    simp [specLastValue]
  | cons e rest ih =>
    intro m k
    rw [List.foldl_cons, ih (upsert m e.Var e.Value) k]
    cases hrest : specLastValue k rest with
    | some v => simp [specLastValue, hrest]
    | none =>
      rw [lookupKey_upsert]
      by_cases h : e.Var = k
      · simp [specLastValue, hrest, h]
      · simp [specLastValue, hrest, h, Ne.symm h]

/-- Folding environment entries into a map with distinct keys keeps the keys
distinct. -/
theorem nodup_envFold (l : List EnvConfig) :
    ∀ m : List (String × String), (m.map Prod.fst).Nodup →
      ((l.foldl (fun m e => upsert m e.Var e.Value) m).map Prod.fst).Nodup := by
  induction l with
  | nil =>
    intro m h
    simpa using h
  | cons e rest ih =>
    intro m h
    rw [List.foldl_cons]
    exact ih _ (upsert_keys_nodup m e.Var e.Value h)

/-- Last-entry-wins over a concatenation: the second list takes precedence. -/
theorem specLastValue_append (k : String) (l1 l2 : List EnvConfig) :
    specLastValue k (l1 ++ l2) =
      match specLastValue k l2 with
      | some v => some v
      | none => specLastValue k l1 := by
  induction l1 with
  | nil =>
    simp only [List.nil_append]
    cases h2 : specLastValue k l2 <;> simp [specLastValue, h2]
  | cons e rest ih =>
    simp only [List.cons_append, specLastValue, List.append_eq]
    rw [ih]
    cases h2 : specLastValue k l2 with
    | some v => simp
    | none =>
      cases hr : specLastValue k rest with
      | some v => simp
      | none => simp

/-- Strict lexicographic comparison is irreflexive. -/
theorem lexLt_irrefl (l : List Char) : lexLt l l = false := by
  induction l with
  | nil => rfl
  | cons a as ih => simp [lexLt, ih]

/-- Strict lexicographic comparison is transitive. -/
theorem lexLt_trans (l1 l2 l3 : List Char) (h12 : lexLt l1 l2 = true)
    (h23 : lexLt l2 l3 = true) : lexLt l1 l3 = true := by
  induction l1 generalizing l2 l3 with
  | nil =>
    cases l2 with
    | nil => simp [lexLt] at h12
    | cons b bs =>
      cases l3 with
      | nil => simp [lexLt] at h23
      | cons c cs => simp [lexLt]
  | cons a as ih =>
    cases l2 with
    | nil => simp [lexLt] at h12
    | cons b bs =>
      cases l3 with
      | nil => simp [lexLt] at h23
      | cons c cs =>
        simp only [lexLt] at h12 h23 ⊢
        by_cases hab : a < b
        · by_cases hbc : b < c
          · simp [lt_trans hab hbc]
          · by_cases hcb : c < b
            · simp [hbc, hcb] at h23
            · have hbc' : b = c := le_antisymm (not_lt.mp hcb) (not_lt.mp hbc)
              rw [hbc'] at hab
              simp [hab]
        · by_cases hba : b < a
          · simp [hab, hba] at h12
          · have hab' : a = b := le_antisymm (not_lt.mp hba) (not_lt.mp hab)
            subst hab'
            simp only [lt_irrefl, if_false] at h12
            by_cases hac : a < c
            · simp [hac]
            · by_cases hca : c < a
              · simp [hac, hca] at h23
              · simp only [hac, hca, if_false] at h23 ⊢
                exact ih bs cs h12 h23

/-- Strict lexicographic comparison is asymmetric. -/
theorem lexLt_asymm (l1 l2 : List Char) (h : lexLt l1 l2 = true) :
    lexLt l2 l1 = false := by
  induction l1 generalizing l2 with
  | nil =>
    cases l2 with
    | nil => simp [lexLt] at h
    | cons b bs => simp [lexLt]
  | cons a as ih =>
    cases l2 with
    | nil => simp [lexLt] at h
    | cons b bs =>
      simp only [lexLt] at h ⊢
      by_cases hab : a < b
      · simp [hab, lt_asymm hab]
      · by_cases hba : b < a
        · simp [hab, hba] at h
        · simp only [hab, hba, if_false] at h ⊢
          exact ih bs h

/-- Distinct char lists compare strictly one way or the other. -/
theorem lexLt_connex (l1 l2 : List Char) (h : l1 ≠ l2) :
    lexLt l1 l2 = true ∨ lexLt l2 l1 = true := by
  induction l1 generalizing l2 with
  | nil =>
    cases l2 with
    | nil => exact absurd rfl h
    | cons b bs =>
      left
      simp [lexLt]
  | cons a as ih =>
    cases l2 with
    | nil =>
      right
      simp [lexLt]
    | cons b bs =>
      by_cases hab : a < b
      · left
        simp [lexLt, hab]
      · by_cases hba : b < a
        · right
          simp [lexLt, hba]
        · have hab' : a = b := le_antisymm (not_lt.mp hba) (not_lt.mp hab)
          subst hab'
          have hne : as ≠ bs := fun he => h (by rw [he])
          rcases ih bs hne with h' | h'
          · left
            simp [lexLt, h']
          · right
            simp [lexLt, h']

/-- Two strings with the same char data are equal. -/
theorem strData_inj (a b : String) (h : a.data = b.data) : a = b := by
  cases a
  cases b
  exact congrArg String.mk (by simpa using h)

/-- `strLt` is transitive. -/
theorem strLt_trans (a b c : String) (h1 : strLt a b = true) (h2 : strLt b c = true) :
    strLt a c = true :=
  lexLt_trans a.data b.data c.data h1 h2

/-- `strLt` is asymmetric. -/
theorem strLt_asymm (a b : String) (h : strLt a b = true) : strLt b a = false :=
  lexLt_asymm a.data b.data h

/-- Distinct strings compare strictly one way or the other. -/
theorem strLt_connex (a b : String) (h : a ≠ b) :
    strLt a b = true ∨ strLt b a = true :=
  lexLt_connex a.data b.data (fun hd => h (strData_inj a b hd))

/-- The sort-key comparison is transitive. -/
theorem kLt_trans (x y z : Int × Int × String) (h1 : kLt x y = true)
    (h2 : kLt y z = true) : kLt x z = true := by
  rcases x with ⟨x1, x2, x3⟩
  rcases y with ⟨y1, y2, y3⟩
  rcases z with ⟨z1, z2, z3⟩
  simp only [kLt] at h1 h2 ⊢
  split_ifs at h1 h2 ⊢ <;> first
    | (simp only [decide_eq_true_eq] at *; omega)
    | (exfalso; simp only [decide_eq_true_eq] at *; omega)
    | exact strLt_trans x3 y3 z3 h1 h2

/-- The sort-key comparison is asymmetric. -/
theorem kLt_asymm (x y : Int × Int × String) (h : kLt x y = true) :
    kLt y x = false := by
  rcases x with ⟨x1, x2, x3⟩
  rcases y with ⟨y1, y2, y3⟩
  simp only [kLt] at h ⊢
  split_ifs at h ⊢ <;> first
    | (simp only [decide_eq_true_eq, decide_eq_false_iff_not] at *; omega)
    | (exfalso; simp only [decide_eq_true_eq, decide_eq_false_iff_not] at *; omega)
    | exact strLt_asymm x3 y3 h

/-- Distinct sort keys compare strictly one way or the other. -/
theorem kLt_connex (x y : Int × Int × String) (h : x ≠ y) :
    kLt x y = true ∨ kLt y x = true := by
  rcases x with ⟨x1, x2, x3⟩
  rcases y with ⟨y1, y2, y3⟩
  by_cases e1 : x1 = y1
  · by_cases e2 : x2 = y2
    · have e3 : x3 ≠ y3 := by
        intro he
        exact h (by rw [e1, e2, he])
      rcases strLt_connex x3 y3 e3 with h' | h'
      · left
        simp only [kLt]
        rw [if_pos e1, if_pos e2]
        exact h'
      · right
        simp only [kLt]
        rw [if_pos e1.symm, if_pos e2.symm]
        exact h'
    · rcases lt_or_gt_of_ne e2 with h' | h'
      · left
        simp only [kLt]
        rw [if_pos e1, if_neg e2]
        simpa using h'
      · right
        simp only [kLt]
        rw [if_pos e1.symm, if_neg (fun he : y2 = x2 => e2 he.symm)]
        simpa using h'
  · rcases lt_or_gt_of_ne e1 with h' | h'
    · left
      simp only [kLt]
      rw [if_neg e1]
      simpa using h'
    · right
      simp only [kLt]
      rw [if_neg (fun he : y1 = x1 => e1 he.symm)]
      simpa using h'

/-- Negative transitivity of the sort-key comparison. -/
theorem kLt_negtrans (x y z : Int × Int × String) (h1 : kLt y x = false)
    (h2 : kLt z y = false) : kLt z x = false := by
  cases hzx : kLt z x with
  | false => rfl
  | true =>
    exfalso
    by_cases hyx : y = x
    · rw [hyx] at h2
      rw [h2] at hzx
      cases hzx
    · rcases kLt_connex y x hyx with h' | h'
      · rw [h1] at h'
        cases h'
      · have ht := kLt_trans _ _ _ hzx h'
        rw [h2] at ht
        cases ht

/-- The source comparator agrees with the key comparison. -/
theorem containerLess_eq_kLt (c1 c2 : container) :
    containerLess c1 c2 = kLt (sortKey c1) (sortKey c2) := rfl

/-- The network bootstrap loop's calls form a prefix of the full
per-endpoint trace, the whole trace exactly when it succeeds. -/
theorem netLoop_events (env : StartEnv) :
    ∀ (ips : List (String × String)) (i : Nat),
      (∃ t, (netLoop env i ips).1 ++ t = netTrace ips) ∧
      ((netLoop env i ips).2 = .ok () → (netLoop env i ips).1 = netTrace ips) := by
  intro ips
  induction ips with
  | nil =>
    intro i
    exact ⟨⟨[], rfl⟩, fun _ => rfl⟩
  | cons p rest ih =>
    intro i
    obtain ⟨⟨t, ht⟩, hok⟩ := ih (i + 1)
    rcases p with ⟨net, ip⟩
    cases hc : env.netCreate i with
    | error e =>
      refine ⟨⟨.connectCall net ip :: netTrace rest, ?_⟩, ?_⟩
      · simp [netLoop, netTrace, hc]
      · intro habs
        simp [netLoop, hc] at habs
    | ok u =>
      cases hcn : env.connect i with
      | error e =>
        refine ⟨⟨netTrace rest, ?_⟩, ?_⟩
        · simp [netLoop, netTrace, hc, hcn]
        · intro habs
          simp [netLoop, hc, hcn] at habs
      | ok v =>
        refine ⟨⟨t, ?_⟩, ?_⟩
        · simp [netLoop, netTrace, hc, hcn, ht]
        · intro hres
          simp only [netLoop, hc, hcn] at hres ⊢
          simp [netTrace, hok hres]

/-- Events that are neither ensure-network nor connect calls do not occur in
a network bootstrap trace. -/
theorem netTrace_count_zero (ips : List (String × String)) (ev : StartEvent)
    (h1 : ∀ net, ev ≠ .netEnsureCall net) (h2 : ∀ net ip, ev ≠ .connectCall net ip) :
    (netTrace ips).count ev = 0 := by
  induction ips with
  | nil => simp [netTrace]
  | cons p rest ih =>
    rcases p with ⟨net, ip⟩
    simp [netTrace, List.count_cons, ih, Ne.symm (h1 net), Ne.symm (h2 net ip)]

/-- Events that are not wrapped purge calls do not occur in a mapped purge
trace. -/
theorem purgeMap_count_zero (l : List PurgeEvent) (ev : StartEvent)
    (h : ∀ e, ev ≠ .purgeCall e) : (l.map .purgeCall).count ev = 0 := by
  rw [List.count_eq_zero]
  intro hm
  rcases List.mem_map.mp hm with ⟨e, _, he⟩
  exact h e he.symm

/-- The canonical start trace contains exactly one pull, one create and one
start call. -/
theorem canonical_counts (c : container) (env : StartEnv) :
    (canonicalStartTrace c env).count (.pullCall (imageReference c)) = 1 ∧
    (canonicalStartTrace c env).count
      (.createCall (name c) (generateDockerConfigs c)) = 1 ∧
    (canonicalStartTrace c env).count (.startCall (name c)) = 1 := by
  refine ⟨?_, ?_, ?_⟩
  · have hM := purgeMap_count_zero (purge (name c) env.purgeSim).1
      (.pullCall (imageReference c)) (by intro e h; cases h)
    have hN := netTrace_count_zero c.ips (.pullCall (imageReference c))
      (by intro n h; cases h) (by intro n i h; cases h)
    simp [canonicalStartTrace, List.count_cons, List.count_append, hM, hN]
  · have hM := purgeMap_count_zero (purge (name c) env.purgeSim).1
      (.createCall (name c) (generateDockerConfigs c)) (by intro e h; cases h)
    have hN := netTrace_count_zero c.ips
      (.createCall (name c) (generateDockerConfigs c))
      (by intro n h; cases h) (by intro n i h; cases h)
    simp [canonicalStartTrace, List.count_cons, List.count_append, hM, hN]
  · have hM := purgeMap_count_zero (purge (name c) env.purgeSim).1
      (.startCall (name c)) (by intro e h; cases h)
    have hN := netTrace_count_zero c.ips (.startCall (name c))
      (by intro n h; cases h) (by intro n i h; cases h)
    simp [canonicalStartTrace, List.count_cons, List.count_append, hM, hN]

/-- The runtime calls of `startInternal` are always an initial segment of
the canonical trace — the full trace exactly on success. -/
theorem startInternal_events (c : container) (env : StartEnv) :
    (∃ t, (startInternal c env).1 ++ t = canonicalStartTrace c env) ∧
    ((startInternal c env).2.2 = .ok →
      (startInternal c env).1 = canonicalStartTrace c env) := by
  cases hp : (pullImage (imageReference c) env.imageSim).2 with
  | error e =>
    refine ⟨⟨(purge (name c) env.purgeSim).1.map .purgeCall ++
      .createCall (name c) (generateDockerConfigs c) :: netTrace c.ips ++
        [.startCall (name c)], ?_⟩, ?_⟩
    · simp [startInternal, hp, canonicalStartTrace]
    · intro habs
      simp [startInternal, hp] at habs
  | ok u =>
    cases hpg : (purge (name c) env.purgeSim).2 with
    | fatal =>
      refine ⟨⟨.createCall (name c) (generateDockerConfigs c) :: netTrace c.ips ++
        [.startCall (name c)], ?_⟩, ?_⟩
      · simp [startInternal, hp, hpg, canonicalStartTrace]
      · intro habs
        simp [startInternal, hp, hpg] at habs
    | err e =>
      refine ⟨⟨.createCall (name c) (generateDockerConfigs c) :: netTrace c.ips ++
        [.startCall (name c)], ?_⟩, ?_⟩
      · simp [startInternal, hp, hpg, canonicalStartTrace]
      · intro habs
        simp [startInternal, hp, hpg] at habs
    | ok =>
      cases hc : env.create with
      | error e =>
        refine ⟨⟨netTrace c.ips ++ [.startCall (name c)], ?_⟩, ?_⟩
        · simp [startInternal, hp, hpg, hc, canonicalStartTrace]
        · intro habs
          simp [startInternal, hp, hpg, hc] at habs
      | ok u' =>
        obtain ⟨⟨t, ht⟩, hnok⟩ := netLoop_events env c.ips 0
        cases hnl : (netLoop env 0 c.ips).2 with
        | error e =>
          refine ⟨⟨t ++ [.startCall (name c)], ?_⟩, ?_⟩
          · simp [startInternal, hp, hpg, hc, hnl, canonicalStartTrace, ← ht]
          · intro habs
            simp [startInternal, hp, hpg, hc, hnl] at habs
        | ok v =>
          have hteq := hnok hnl
          cases hst : env.startC with
          | error e =>
            refine ⟨⟨[], ?_⟩, ?_⟩
            · simp [startInternal, hp, hpg, hc, hnl, hst, canonicalStartTrace, hteq]
            · intro habs
              simp [startInternal, hp, hpg, hc, hnl, hst] at habs
          | ok w =>
            refine ⟨⟨[], ?_⟩, fun _ => ?_⟩ <;>
              simp [startInternal, hp, hpg, hc, hnl, hst, canonicalStartTrace, hteq]

/-- When no container start in the batch is fatal, the loop processes every
container, collects exactly the failure messages in processing order, and
never sets the fatal flag. -/
theorem batchLoop_no_fatal (items : List (container × StartEnv))
    (h : ∀ p ∈ items, (start p.1 p.2).2.2 ≠ .fatal) :
    (batchLoop items).1 = items.length ∧
    (batchLoop items).2.2.1 = batchFails items ∧
    (batchLoop items).2.2.2 = false := by
  induction items with
  | nil => simp [batchLoop, batchFails]
  | cons p rest ih =>
    have hp := h p (List.mem_cons_self p rest)
    obtain ⟨hn, hf, hb⟩ := ih (fun q hq => h q (List.mem_cons_of_mem p hq))
    rcases p with ⟨c, env⟩
    cases hres : (start c env).2.2 with
    | fatal => exact absurd hres hp
    | ok => simp [batchLoop, batchFails, List.filterMap_cons, hres, hn, hf, hb]
    | err m => simp [batchLoop, batchFails, List.filterMap_cons, hres, hn, hf, hb]

/-! ## Claims -/

/-- C1 counterexample: in the scenario the claim describes — a container
observed `Running` on every query — purge does fail with
`PurgeExhaustedError`, but the number of state queries it issues is not 5:
the loop issues 5 and the final verification adds a 6th. -/
theorem purge_stuck_running_not_five_queries :
    (purge "g1-c1" runningSim).2 = .err (purgeExhaustedMsg "g1-c1") ∧
    ¬ (purge "g1-c1" runningSim).1.count .inspectCall = 5 := by
  decide

/-- C1 (amended): a container stuck permanently in `Running` fails with
`PurgeExhaustedError` after exactly 6 state queries (5 during the loop and
1 final verification query); the 1st attempt issues a stop, and attempts 2
through 5 each issue a kill followed by a wait. -/
theorem purge_stuck_running_six_queries :
    purge "g1-c1" runningSim =
      ([.inspectCall, .stopCall,
        .inspectCall, .killCall, .sleepCall,
        .inspectCall, .killCall, .sleepCall,
        .inspectCall, .killCall, .sleepCall,
        .inspectCall, .killCall, .sleepCall,
        .inspectCall],
       .err (purgeExhaustedMsg "g1-c1")) ∧
    (purge "g1-c1" runningSim).1.count .inspectCall = 6 := by
  decide

/-- C2: every purge-loop iteration consumes exactly one unit of the attempt
budget whatever branch it takes (the loop with its budget of 5 issues
exactly 5 state queries when no query observes `NotFound`), after which
purge performs exactly one final state query and returns
`PurgeExhaustedError` if and only if that final query still does not report
`NotFound`; if it reports `NotFound`, purge succeeds. -/
theorem purge_budget_and_final_query (ctr : String) (sim : DockerSim)
    (st5 : ContainerState)
    (hstop : sim.stop = .ok ()) (hrem : ∀ i, sim.remove i = .ok ())
    (hloop : ∀ i, i < stopAndRemoveAttempts → stateReported sim i ≠ none ∧
      stateReported sim i ≠ some .notFound ∧ stateReported sim i ≠ some .unknown)
    (hfin : stateReported sim stopAndRemoveAttempts = some st5) :
    (purge ctr sim).1.count .inspectCall = stopAndRemoveAttempts + 1 ∧
    ((purge ctr sim).2 = .ok ↔ st5 = .notFound) ∧
    ((purge ctr sim).2 = .err (purgeExhaustedMsg ctr) ↔ st5 ≠ .notFound) := by
  obtain ⟨h2, hc⟩ := purgeLoop_exhausts_budget sim hstop hrem stopAndRemoveAttempts 0 false
    (fun i hi => by simpa using hloop i hi)
  rw [Nat.zero_add] at h2
  have hg : getContainerState sim stopAndRemoveAttempts = .ok st5 := by
    revert hfin
    unfold stateReported
    cases getContainerState sim stopAndRemoveAttempts <;> simp
  by_cases hnf : st5 = .notFound
  · subst hnf
    simp [purge, h2, hg, hc, List.count_append]
  · simp [purge, h2, hg, hc, hnf, List.count_append]

/-- C2 witness: a purge walking through remove, stop, removing-wait, kill
and remove branches consumes the whole budget of 5 with 5 loop queries, and
the final 6th query reporting `NotFound` makes it succeed. -/
theorem purge_budget_and_final_query_witness :
    (purge "g1-c1" variedSim).1.count .inspectCall = 6 ∧
    (purge "g1-c1" variedSim).2 = .ok := by
  have h := purge_budget_and_final_query "g1-c1" variedSim .notFound rfl
    (fun _ => rfl) (by decide) (by decide)
  exact ⟨h.1, h.2.1.mpr rfl⟩

/-- C3 counterexample: a container with an unset stop signal and a global
default stop signal of SIGTERM observes an empty resolved stop signal — the
source (`container.stopSignal`) performs no fallback for the stop signal. -/
theorem stopSignal_no_fallback :
    ctrC1.config.StopSignal = "" ∧
    ctrC1.globalConfig.StopSignal = "SIGTERM" ∧
    stopSignal ctrC1 = "" ∧
    stopSignal ctrC1 ≠
      specResolveString ctrC1.config.StopSignal ctrC1.globalConfig.StopSignal := by
  decide

/-- C3 (amended): when translating a container spec, domain name, stop
timeout and restart policy each resolve by falling back from the
per-container value to the global default whenever the per-container value
is unset; the stop signal always uses the per-container value with no
fallback. -/
theorem creation_defaults_resolution (c : container) :
    domainName c = specResolveString c.config.DomainName c.globalConfig.DomainName ∧
    stopTimeout c = specResolveInt c.config.StopTimeout c.globalConfig.StopTimeout ∧
    restartPolicy c =
      specResolveString c.config.RestartPolicy c.globalConfig.RestartPolicy ∧
    stopSignal c = c.config.StopSignal :=
  ⟨rfl, rfl, rfl, rfl⟩

/-- C7 counterexample: two distinct containers — their (group, container)
identity pairs differ — whose composite names collide ("a-b" + "c" and "a" +
"b-c" both give "a-b-c") and whose orders coincide have equal sort keys and
tie under the comparator, so the key does not induce a strict total order
with no ties between distinct containers. -/
theorem distinct_containers_key_tie :
    (ctrTieX.groupConfig.Name, ctrTieX.config.Name) ≠
      (ctrTieY.groupConfig.Name, ctrTieY.config.Name) ∧
    sortKey ctrTieX = sortKey ctrTieY ∧
    containerLess ctrTieX ctrTieY = false ∧
    containerLess ctrTieY ctrTieX = false := by
  decide

/-- C7 (amended): the resolved processing order is a permutation of the
selected containers sorted ascending by the key (group.order,
container.order, composite container name) — no later container compares
strictly below an earlier one — and the key induces a strict order that is
total between containers with distinct composite names (the composite name
is the final tie-break); distinct containers whose composite names collide
can tie. -/
theorem containers_sorted_strict_order :
    (∀ cm : List container, (containerMapToList cm).Perm cm ∧
      (containerMapToList cm).Pairwise (fun a b => containerLess b a = false)) ∧
    (∀ c1 c2 : container, name c1 ≠ name c2 →
      containerLess c1 c2 = true ∨ containerLess c2 c1 = true) ∧
    (∀ c1 c2 : container, containerLess c1 c2 = true →
      containerLess c2 c1 = false) := by
  have hasym : ∀ c1 c2 : container, containerLess c1 c2 = true →
      containerLess c2 c1 = false := by
    intro c1 c2 h
    rw [containerLess_eq_kLt] at h ⊢
    exact kLt_asymm _ _ h
  refine ⟨fun cm => ⟨List.mergeSort_perm cm _, ?_⟩, ?_, hasym⟩
  · have htrans : ∀ a b c : container, (!containerLess b a) = true →
        (!containerLess c b) = true → (!containerLess c a) = true := by
      intro a b c h1 h2
      rw [Bool.not_eq_true'] at h1 h2 ⊢
      rw [containerLess_eq_kLt] at h1 h2 ⊢
      exact kLt_negtrans _ _ _ h1 h2
    have htotal : ∀ a b : container,
        ((!containerLess b a) || (!containerLess a b)) = true := by
      intro a b
      cases hab : containerLess b a with
      | false => simp
      | true => simp [hasym b a hab]
    have hs := List.sorted_mergeSort htrans htotal cm
    exact hs.imp (fun h => by simpa [Bool.not_eq_true'] using h)
  · intro c1 c2 hn
    have hk : sortKey c1 ≠ sortKey c2 := fun he => hn (congrArg (fun p => p.2.2) he)
    rw [containerLess_eq_kLt, containerLess_eq_kLt]
    exact kLt_connex _ _ hk

/-- C7 witness: the fixture containers g1-c1 and g1-c2 have distinct
composite names, compare strictly one way, and the comparator is asymmetric
on them. -/
theorem containers_sorted_strict_order_witness :
    (containerLess ctrC1 ctrC2 = true ∨ containerLess ctrC2 ctrC1 = true) ∧
    containerLess ctrC2 ctrC1 = false :=
  ⟨containers_sorted_strict_order.2.1 ctrC1 ctrC2 (by decide),
   containers_sorted_strict_order.2.2 ctrC1 ctrC2 (by decide)⟩

/-- C8: the environment merge is a two-tier keyed overlay — per-container
entries override global defaults by key (the merged value of any key is the
last per-container entry for it, falling back to the last global entry), the
merged result has no duplicate keys, and a global FOO=bar with a container
override FOO=baz yields exactly one FOO entry with value baz. -/
theorem env_merge_two_tier_overlay (c : container) (k : String) :
    lookupKey (envMap c) k =
      (match specLastValue k c.config.Env with
       | some v => some v
       | none => specLastValue k c.globalConfig.Env) ∧
    ((envMap c).map Prod.fst).Nodup ∧
    envVars ctrC1 = ["FOO=baz"] := by
  refine ⟨?_, ?_, by decide⟩
  · unfold envMap
    rw [lookupKey_envFold, specLastValue_append]
    cases specLastValue k c.config.Env <;>
      cases specLastValue k c.globalConfig.Env <;> simp [lookupKey]
  · exact nodup_envFold _ [] (by simp)

/-- C3 witness: the fixture container with all per-container values unset
resolves domain name, stop timeout and restart policy to the global
defaults, and its stop signal stays empty. -/
theorem creation_defaults_resolution_witness :
    domainName ctrC2 = "example.tld" ∧ stopTimeout ctrC2 = 30 ∧
    restartPolicy ctrC2 = "unless-stopped" ∧ stopSignal ctrC2 = "" := by
  have h := creation_defaults_resolution ctrC2
  exact ⟨h.1.trans (by decide), h.2.1.trans (by decide),
    h.2.2.1.trans (by decide), h.2.2.2.trans (by decide)⟩

/-- C4: the start sequence executes its steps in the strict order pull
image, purge, translate spec (the create call carries the translated
parameters), create, per-endpoint network ensure-and-connect, start: its
runtime calls are always an initial segment of that canonical order — any
failing step aborts the sequence right there — the full sequence exactly on
success; the aborted sequence's error is tagged with the container's
composite identity by `start`; and no step is retried: pull, create and
start each occur at most once in the trace. -/
theorem start_sequence_order (c : container) (env : StartEnv) :
    (∃ t, (startInternal c env).1 ++ t = canonicalStartTrace c env) ∧
    ((startInternal c env).2.2 = .ok →
      (startInternal c env).1 = canonicalStartTrace c env) ∧
    (∀ e, (startInternal c env).2.2 = .err e → isAllowedOnCurrentHost c = true →
      (start c env).2.2 =
        .err ("Failed to start container " ++ name c ++ ", reason:" ++ e)) ∧
    (startInternal c env).1.count (.pullCall (imageReference c)) ≤ 1 ∧
    (startInternal c env).1.count
      (.createCall (name c) (generateDockerConfigs c)) ≤ 1 ∧
    (startInternal c env).1.count (.startCall (name c)) ≤ 1 := by
  obtain ⟨⟨t, ht⟩, hok⟩ := startInternal_events c env
  obtain ⟨h1, h2, h3⟩ := canonical_counts c env
  have hle : ∀ ev : StartEvent, (startInternal c env).1.count ev ≤
      (canonicalStartTrace c env).count ev := by
    intro ev
    rw [← ht, List.count_append]
    omega
  refine ⟨⟨t, ht⟩, hok, ?_, ?_, ?_, ?_⟩
  · intro e he hallow
    rcases hsi : startInternal c env with ⟨evs, ns, res⟩
    rw [hsi] at he
    simp only at he
    subst he
    simp [start, hallow, hsi]
  · exact le_trans (hle _) (le_of_eq h1)
  · exact le_trans (hle _) (le_of_eq h2)
  · exact le_trans (hle _) (le_of_eq h3)

/-- C4 witness: on the all-success oracle the fixture container's trace is
exactly the canonical sequence, and with a failing pull the start error is
tagged with the composite container name. -/
theorem start_sequence_order_witness :
    (startInternal ctrC1 allOkEnv).1 = canonicalStartTrace ctrC1 allOkEnv ∧
    (start ctrC1 (pullFailEnv "abc/xyz")).2.2 =
      .err ("Failed to start container g1-c1, reason:failed to pull the image abc/xyz, reason: image abc/xyz not found or invalid and cannot be pulled by the fake docker host") :=
  ⟨(start_sequence_order ctrC1 allOkEnv).2.1 (by decide),
   (start_sequence_order ctrC1 (pullFailEnv "abc/xyz")).2.2.1
     "failed to pull the image abc/xyz, reason: image abc/xyz not found or invalid and cannot be pulled by the fake docker host"
     (by decide) (by decide)⟩

/-- C5: a per-container failure does not abort the batch — with no fatal
outcome every container is processed — and after the batch a single
aggregate error enumerates exactly the recorded failures, 1-indexed, in
original processing order, each entry carrying the container's composite
name and failure reason (each recorded message is the identity-tagged start
error); with zero failures the batch succeeds. -/
theorem batch_aggregation (items : List (container × StartEnv))
    (h : ∀ p ∈ items, (start p.1 p.2).2.2 ≠ .fatal) :
    (startBatch items).1 = items.length ∧
    ((startBatch items).2.2 = .ok ↔ batchFails items = []) ∧
    (batchFails items ≠ [] →
      (startBatch items).2.2 = .err (aggregateMsg "start" (batchFails items))) := by
  obtain ⟨hn, hf, hb⟩ := batchLoop_no_fatal items h
  by_cases he : batchFails items = []
  · simp [startBatch, hn, hf, hb, he]
  · simp [startBatch, hn, hf, hb, he]

set_option maxRecDepth 4000 in
/-- C5 witness: the spec's three-container scenario — containers 1 and 3
fail their image pull, container 2 succeeds — processes all three
containers, reports container 2 started, and raises the single aggregate
error with exactly 2 entries numbered 1 and 2 in original order. -/
theorem batch_aggregation_witness :
    (startBatch batchItems).1 = 3 ∧
    "Started container g1-c2" ∈ (startBatch batchItems).2.1 ∧
    (startBatch batchItems).2.2 = .err
      ("start failed for 2 containers, reason(s):\n1 - Failed to start container g1-c1, reason:failed to pull the image abc/xyz, reason: image abc/xyz not found or invalid and cannot be pulled by the fake docker host\n2 - Failed to start container g2-c3, reason:failed to pull the image abc/xyz3, reason: image abc/xyz3 not found or invalid and cannot be pulled by the fake docker host") := by
  have h := batch_aggregation batchItems (by decide)
  exact ⟨h.1, by decide, (h.2.2 (by decide)).trans (by decide)⟩

/-- C8 witness: a key only in the global tier resolves to the global value,
and the FOO override scenario yields exactly one FOO=baz entry. -/
theorem env_merge_two_tier_overlay_witness :
    lookupKey (envMap ctrC2) "FOO" = some "bar" ∧ envVars ctrC1 = ["FOO=baz"] := by
  have h := env_merge_two_tier_overlay ctrC2 "FOO"
  exact ⟨h.1.trans (by decide), h.2.2⟩

/-- C6: a container not allowed on the current host is a skip, not a
failure: zero runtime calls, exactly one "not allowed" notice, and a nil
error. -/
theorem start_skip_not_allowed (c : container) (env : StartEnv)
    (h : isAllowedOnCurrentHost c = false) :
    start c env =
      ([], ["Container " ++ name c ++ " not allowed to run on host \x27" ++
        c.host.humanFriendlyHostName ++ "\x27"], .ok) := by
  simp [start, h]

/-- C6 witness: the denied fixture container is skipped with the single
notice, no runtime call and success. -/
theorem start_skip_not_allowed_witness :
    start ctrC1Denied allOkEnv =
      ([], ["Container g1-c1 not allowed to run on host \x27fakehost\x27"], .ok) := by
  have h := start_skip_not_allowed ctrC1Denied allOkEnv (by decide)
  exact h.trans (by decide)

/-- C9: a state query reporting a status string outside the modeled set maps
to `Unknown`, and the purge loop treats it as a fatal invariant violation:
it stops at that query with the fatal outcome (modelling `log.Fatalf`, which
aborts the whole process run, distinct from a returned per-container error)
issuing no further call whatever budget remains — it is never retried. -/
theorem purge_unmodelled_state_fatal (sim : DockerSim) (ctr s : String) (q : Nat)
    (hs : sim.inspect q = .status s)
    (h1 : s ≠ "created") (h2 : s ≠ "running") (h3 : s ≠ "paused")
    (h4 : s ≠ "restarting") (h5 : s ≠ "removing") (h6 : s ≠ "exited")
    (h7 : s ≠ "dead") :
    containerStateFromString s = .unknown ∧
    (∀ fuel stopped, purgeLoop sim (fuel + 1) q stopped = ([.inspectCall], .fatalExit)) ∧
    (q = 0 → purge ctr sim = ([.inspectCall], .fatal)) := by
  have hu : containerStateFromString s = .unknown := by
    simp [containerStateFromString, h1, h2, h3, h4, h5, h6, h7]
  have hg : getContainerState sim q = .ok .unknown := by
    simp [getContainerState, hs, hu]
  refine ⟨hu, fun fuel stopped => purgeLoop_unknown_step sim fuel q stopped hg, ?_⟩
  intro hq
  subst hq
  have h5s : purgeLoop sim 5 0 false = ([.inspectCall], .fatalExit) :=
    purgeLoop_unknown_step sim 4 0 false hg
  simp [purge, stopAndRemoveAttempts, h5s]

/-- C9 witness: the status string "zombie" is outside the modeled set; the
purge of a container reporting it aborts fatally on the first query. -/
theorem purge_unmodelled_state_fatal_witness :
    containerStateFromString "zombie" = .unknown ∧
    purgeLoop zombieSim 5 0 false = ([.inspectCall], .fatalExit) ∧
    purge "g1-c1" zombieSim = ([.inspectCall], .fatal) := by
  have h := purge_unmodelled_state_fatal zombieSim "g1-c1" "zombie" 0 rfl
    (by decide) (by decide) (by decide) (by decide) (by decide) (by decide) (by decide)
  exact ⟨h.1, h.2.1 4 false, h.2.2 rfl⟩

/-- C10: the local-availability query reports any listing failure or empty
listing as "not available locally", never propagating the error; hence when
the post-pull re-check's listing fails after a successful pull,
`pullImage` returns the fatal not-available-after-pull error. -/
theorem queryLocalImage_swallows_errors (sim : ImageSim) (n : Nat) (imageName : String) :
    (∀ e, sim.list n = .error e → queryLocalImage sim n = (false, "")) ∧
    (sim.list n = .ok [] → queryLocalImage sim n = (false, "")) ∧
    (sim.pull = .ok () → sim.readProgress = .ok () →
      ∀ e, sim.list 1 = .error e →
        (pullImage imageName sim).2 = .error ("image " ++ imageName ++
          " not available locally after a successful pull, possibly indicating a bug or a system failure!")) := by
  refine ⟨?_, ?_, ?_⟩
  · intro e h
    simp [queryLocalImage, h]
  · intro h
    simp [queryLocalImage, h]
  · intro hp hr e hl
    simp [pullImage, hp, hr, queryLocalImage, hl]

/-- C10 witness: with a successful pull whose post-pull listing fails, the
fatal not-available-after-pull error is returned. -/
theorem queryLocalImage_swallows_errors_witness :
    (pullImage "abc/xyz" relistFailImageSim).2 =
      .error "image abc/xyz not available locally after a successful pull, possibly indicating a bug or a system failure!" := by
  have h := (queryLocalImage_swallows_errors relistFailImageSim 1 "abc/xyz").2.2
    rfl rfl "boom" rfl
  exact h.trans (by rfl)

end Homelab
